import Mathlib

/-!
Shallow embedding of the DiffETL classification-and-aggregation core
(diffetl.transform and diffetl.extract) together with theorems checking
the natural-language specification against it.

Python strings are modelled as Lean `String` at the data-model level and as
`List Char` inside the character-level helpers (`String.data` is the bridge).
Raw byte payloads (diff patches) are modelled as text whose
utf-8 ignore-errors decode is itself; the bytes the code inspects
(`'+'`, `'-'`, `'\n'`, NUL) are one-byte code points, so the modelling is
exact on the inputs used here.  Python exceptions are modelled with
`Except String`; fallible attribute reads carry their own `Except` value.
-/

namespace DiffETL

/-! ### Python string primitives -/

/-- The whitespace class used by Python `str.strip`, `str.isspace` and the
regex class `\s` (ASCII part; exotic Unicode whitespace is out of scope). -/
def pyIsSpaceChar (c : Char) : Bool :=
  c = ' ' || c = '\t' || c = '\n' || c = '\r' || c = '\x0b' || c = '\x0c'

/-- Python `str.split(sep)` for a one-character separator:
`"".split(c) = [""]`, separators produce empty fields. -/
def pySplit (sep : Char) : List Char → List (List Char)
  | [] => [[]]
  | c :: rest =>
    match pySplit sep rest with
    | [] => if c = sep then [[], []] else [[c]]
    | h :: t => if c = sep then [] :: h :: t else (c :: h) :: t

/-- Python `s.startswith(p)` on character lists. -/
def isPrefixChars : List Char → List Char → Bool
  | [], _ => true
  | _ :: _, [] => false
  | p :: ps, s :: ss => p = s && isPrefixChars ps ss

/-- Python `s.endswith(p)` on character lists. -/
def isSuffixChars (p s : List Char) : Bool :=
  isPrefixChars p.reverse s.reverse

/-- Python `p in s` (substring containment) on character lists. -/
def containsSub (p : List Char) : List Char → Bool
  | [] => isPrefixChars p []
  | c :: rest => isPrefixChars p (c :: rest) || containsSub p rest

/-- Python `str.strip()` (whitespace on both ends). -/
def pyStrip (cs : List Char) : List Char :=
  ((cs.dropWhile pyIsSpaceChar).reverse.dropWhile pyIsSpaceChar).reverse

/-- Python `str.isspace()`: nonempty and all whitespace. -/
def pyIsSpaceStr (cs : List Char) : Bool :=
  !cs.isEmpty && cs.all pyIsSpaceChar

/-- Python `str.lower()` (ASCII case mapping; the classifier inputs are
ASCII paths/messages). -/
def pyLower (cs : List Char) : List Char :=
  cs.map Char.toLower

/-! ### diffetl.transform._enum : constant tables -/

def TEST_PATHS : List (List Char) := ["/test/".data, "/tests/".data]

def TEST_PREFIXES : List (List Char) := ["tests".data, "test_".data]

def TEST_SUFFIXES : List (List Char) :=
  ["_test.py".data, ".spec.ts".data, "-test.js".data, ".test.js".data, "_test.rb".data]

def DOC_PATHS : List (List Char) := ["/docs/".data, "/doc/".data, "/documentation/".data]

def DOC_PREFIXES : List (List Char) := ["docs/".data, "documentation/".data]

def DOC_SUFFIXES : List (List Char) := [".md".data, ".rst".data, ".txt".data]

def DOC_FILES : List (List Char) :=
  ["license".data, "readme".data, "changelog".data, "contributing".data]

def BUILD_PATHS : List (List Char) := ["/build/".data, "/ci/".data, "/.github/".data]

def BUILD_FILES : List (List Char) :=
  ["makefile".data, "dockerfile".data, "docker".data, ".sh".data, ".bat".data, ".ps1".data]

def CONFIG_EXTS : List (List Char) :=
  [".yaml".data, ".ini".data, ".json".data, ".toml".data, ".yml".data, ".cfg".data,
   ".conf".data, ".properties".data, ".gitignore".data, ".env".data, ".dockerignore".data]

def SOURCE_CODE_MIMES : List (List Char) :=
  ["text/x-python".data, "text/javascript".data, "text/x-java-source".data,
   "text/x-c".data, "text/x-c++".data, "text/x-go".data, "text/x-php".data,
   "text/x-ruby".data, "text/html".data, "text/css".data]

def CONFIG_MIME_KEYWORDS : List (List Char) :=
  ["json".data, "xml".data, "yaml".data, "ini".data]

def ARCHIVE_MIME_KEYWORDS : List (List Char) :=
  ["zip".data, "tar".data, "gzip".data, "rar".data, "x-bzip2".data]

def BUILD_MIME_KEYWORDS : List (List Char) :=
  ["application/x-sh".data, "application/x-executable".data, "application/octet-stream".data]

/-! ### diffetl.transform._enum : enums and the FileType cascade -/

inductive DiffType where
  | COMMIT
  | FILE
  | HUNK
  | LINE_GROUP
deriving DecidableEq

inductive ChangeType where
  | ADDED
  | REMOVED
  | MODIFIED
  | RENAMED
  | COPIED
  | TYPE_CHANGED
  | UNCHANGED
deriving DecidableEq

inductive FileType where
  | SOURCE_CODE
  | TEST
  | CONFIG
  | DOCUMENTATION
  | BUILD
  | DATA
  | IMAGE
  | AUDIO
  | VIDEO
  | ARCHIVE
  | UNKNOWN
deriving DecidableEq

namespace FileType

/-- FileType._is_test_file (the argument is already lowercased). -/
def isTestFile (path : List Char) : Bool :=
  TEST_PATHS.any (fun p => containsSub p path)
    || TEST_PREFIXES.any (fun p => isPrefixChars p path)
    || TEST_SUFFIXES.any (fun p => isSuffixChars p path)

/-- FileType._is_documentation. -/
def isDocumentation (path : List Char) : Bool :=
  DOC_PATHS.any (fun p => containsSub p path)
    || DOC_PREFIXES.any (fun p => isPrefixChars p path)
    || DOC_SUFFIXES.any (fun p => isSuffixChars p path)
    || DOC_FILES.any (fun f => isSuffixChars f path)

/-- FileType._is_build_file (note: the build filenames use substring
containment in the source, not an endswith test). -/
def isBuildFile (path : List Char) : Bool :=
  BUILD_PATHS.any (fun p => containsSub p path)
    || BUILD_FILES.any (fun f => containsSub f path)

/-- FileType._is_config_file. -/
def isConfigFile (path : List Char) : Bool :=
  CONFIG_EXTS.any (fun e => isSuffixChars e path)

/-- FileType._is_data_file. -/
def isDataFile (path : List Char) : Bool :=
  containsSub "/data/".data path || isPrefixChars "data/".data path

/-- FileType._from_mime_type.  The second argument (the lowered path) is
accepted and ignored, exactly as in the source. -/
def fromMimeType (mime : List Char) (_path : List Char) : FileType :=
  if isPrefixChars "text/".data mime then
    if mime ∈ SOURCE_CODE_MIMES then SOURCE_CODE
    else if CONFIG_MIME_KEYWORDS.any (fun k => containsSub k mime) then CONFIG
    else DATA
  else if isPrefixChars "application/".data mime then
    if CONFIG_MIME_KEYWORDS.any (fun k => containsSub k mime) then CONFIG
    else if ARCHIVE_MIME_KEYWORDS.any (fun k => containsSub k mime) then ARCHIVE
    else if mime ∈ BUILD_MIME_KEYWORDS then BUILD
    else SOURCE_CODE
  else if isPrefixChars "image/".data mime then IMAGE
  else if isPrefixChars "audio/".data mime then AUDIO
  else if isPrefixChars "video/".data mime then VIDEO
  else UNKNOWN

/-- FileType.from_path_to_content.  `guess` stands for the Python standard
library call `mimetypes.guess_type` (an out-of-scope collaborator): it
receives the original-case path and returns an optional MIME type
(Python also lets it return an empty, hence falsy, string). -/
def fromPathToContent (guess : String → Option String) (file_path : Option String) :
    FileType :=
  match file_path with
  | none => UNKNOWN
  | some fp =>
    if fp = "" then UNKNOWN
    else
      let path_lower := pyLower fp.data
      if isTestFile path_lower then TEST
      else if isDocumentation path_lower then DOCUMENTATION
      else if isBuildFile path_lower then BUILD
      else if isConfigFile path_lower then CONFIG
      else if isDataFile path_lower then DATA
      else
        match guess fp with
        | some mime => if mime = "" then UNKNOWN else fromMimeType mime.data path_lower
        | none => UNKNOWN

end FileType

/-- One rule of the ordered classification cascade of the spec: a predicate on
the lowered path together with the type returned when it fires. -/
def cascadeRules : List ((List Char → Bool) × FileType) :=
  [(FileType.isTestFile, FileType.TEST),
   (FileType.isDocumentation, FileType.DOCUMENTATION),
   (FileType.isBuildFile, FileType.BUILD),
   (FileType.isConfigFile, FileType.CONFIG),
   (FileType.isDataFile, FileType.DATA)]

/-- First-match-wins evaluation of an ordered rule list. -/
def firstMatchRule : List ((List Char → Bool) × FileType) → List Char → Option FileType
  | [], _ => none
  | (p, t) :: rest, path => if p path then some t else firstMatchRule rest path

/-- Spec-side definition of the classifier, following the words of the spec: an
UNKNOWN result for an absent/empty path, else the ordered first-match-wins
cascade test, documentation, build, config, data, then MIME inference,
then UNKNOWN.  Compared against the source-side
FileType.fromPathToContent. -/
def classifyCascadeSpec (guess : String → Option String) (file_path : Option String) :
    FileType :=
  match file_path with
  | none => FileType.UNKNOWN
  | some fp =>
    if fp = "" then FileType.UNKNOWN
    else
      match firstMatchRule cascadeRules (pyLower fp.data) with
      | some t => t
      | none =>
        match guess fp with
        | some mime =>
          if mime = "" then FileType.UNKNOWN
          else FileType.fromMimeType mime.data (pyLower fp.data)
        | none => FileType.UNKNOWN

example : FileType.fromPathToContent (fun _ => none) (some "docs/test_helpers.md")
    = FileType.DOCUMENTATION := by decide

example : FileType.fromPathToContent (fun _ => none) (some "") = FileType.UNKNOWN := rfl

example : FileType.fromPathToContent (fun _ => none) (some "tests/x.py")
    = FileType.TEST := by decide

/-! ### diffetl.transform.assessor : MessageQualityAssessor -/

def CONVENTIONAL_COMMIT_TYPES : List (List Char) :=
  ["feat".data, "fix".data, "docs".data, "style".data, "refactor".data, "test".data,
   "perf".data, "build".data, "ci".data, "chore".data, "revert".data]

def FORBIDDEN_WORDS : List (List Char) :=
  ["WIP".data, "TODO".data, "FIXME".data, "TEMP".data, "DEBUG".data, "HACK".data, "XXX".data]

/-- The scope character class `[a-zA-Z0-9\-_]` of the conventional-commit
regex, applied to already-lowercased input. -/
def scopeChar (c : Char) : Bool :=
  ('a' ≤ c && c ≤ 'z') || ('0' ≤ c && c ≤ '9') || c = '-' || c = '_'

/-- The regex word class `\w` (ASCII), applied to already-lowercased input;
used for the `\b` boundaries of the forbidden-word pattern. -/
def isWordChar (c : Char) : Bool :=
  ('a' ≤ c && c ≤ 'z') || ('0' ≤ c && c ≤ '9') || c = '_'

/-- Tail of the conventional-commit pattern, `\s+.+`: at least one
whitespace character, then (after backtracking) one character other than
a newline preceded only by whitespace.  Because every skipped candidate is
a newline (itself whitespace), this is equivalent to: the head is
whitespace and some later character is not a newline. -/
def matchWsBody : List Char → Bool
  | [] => false
  | c :: rest => pyIsSpaceChar c && rest.any (fun d => d ≠ '\n')

/-- The `!?:` part of the conventional-commit pattern followed by its
`\s+.+` tail. -/
def matchBangColon : List Char → Bool
  | '!' :: ':' :: r => matchWsBody r
  | ':' :: r => matchWsBody r
  | _ => false

/-- The optional `(\([a-zA-Z0-9\-_]+\))?` scope group followed by the rest
of the pattern.  When the next character is an opening parenthesis the
empty-group alternative can never continue (a parenthesis matches neither
the optional bang nor the colon), so a full scope must parse; greediness
of the character class is deterministic because a closing parenthesis is
outside the class. -/
def matchScopeRest (r : List Char) : Bool :=
  match r with
  | '(' :: r1 =>
    let inner := r1.takeWhile scopeChar
    if inner.isEmpty then false
    else
      match r1.drop inner.length with
      | ')' :: r2 => matchBangColon r2
      | _ => false
  | _ => matchBangColon r

/-- The anchored conventional-commit pattern
`^(type)(\(scope\))?!?:\s+.+` with IGNORECASE, evaluated on the stripped
message.  No commit type is a prefix of another, so the alternation order
cannot matter for a boolean match. -/
def matchConventional (stripped : List Char) : Bool :=
  let ml := pyLower stripped
  CONVENTIONAL_COMMIT_TYPES.any (fun t =>
    isPrefixChars t ml && matchScopeRest (ml.drop t.length))

/-- One candidate position of the `\b(WORD)\b` search: the previous
character (if any) is not a word character, the word matches here, and the
following character (if any) is not a word character. -/
def wordAtHere (w : List Char) (prev : Option Char) (s : List Char) : Bool :=
  (match prev with
   | none => true
   | some c => !isWordChar c)
  && isPrefixChars w s
  && (match s.drop w.length with
      | [] => true
      | c :: _ => !isWordChar c)

/-- Scanning search for a whole word, mirroring `re.search`. -/
def searchWordAux (w : List Char) (prev : Option Char) : List Char → Bool
  | [] => wordAtHere w prev []
  | c :: rest => wordAtHere w prev (c :: rest) || searchWordAux w (some c) rest

/-- The forbidden-word search `\b(WIP|TODO|...)\b` with IGNORECASE on the
whole (unstripped) message; for a boolean result the alternation order is
irrelevant. -/
def hasForbiddenWord (cs : List Char) : Bool :=
  let ml := pyLower cs
  FORBIDDEN_WORDS.any (fun w => searchWordAux (pyLower w) none ml)

/-- The record returned by MessageQualityAssessor.validate_message. -/
structure ValidationResult where
  message_is_not_empty : Bool
  message_is_conventional : Bool
  message_is_within_length : Bool
  message_has_forbidden_words : Bool
deriving DecidableEq

/-- The constructor default `max_length_commit = 72`. -/
def maxLengthCommitDefault : Nat := 72

/-- MessageQualityAssessor.validate_message.  Each of the conventional,
within-length and forbidden-word flags is computed under an
`if is_not_empty else False` guard, exactly as in the source. -/
def validateMessage (maxLengthCommit : Nat) (message : String) : ValidationResult :=
  let cs := message.data
  let isNotEmpty := !cs.isEmpty && !pyIsSpaceStr cs
  { message_is_not_empty := isNotEmpty
    message_is_conventional :=
      if isNotEmpty then matchConventional (pyStrip cs) else false
    message_is_within_length :=
      if isNotEmpty then decide (cs.length ≤ maxLengthCommit) else false
    message_has_forbidden_words :=
      if isNotEmpty then hasForbiddenWord cs else false }

example : validateMessage 72 "feat(core): add x" =
    ⟨true, true, true, false⟩ := by decide

example : validateMessage 72 "wip: quick hack" =
    ⟨true, false, true, true⟩ := by decide

example : validateMessage 72 "" = ⟨false, false, false, false⟩ := by decide

example : validateMessage 72 "feat!: x" = ⟨true, true, true, false⟩ := by decide

example : validateMessage 72 "feat(): x" = ⟨true, false, true, false⟩ := by decide

example : validateMessage 72 "feat:x" = ⟨true, false, true, false⟩ := by decide

/-! ### diffetl.transform.file and diffetl.transform.diff : data model -/

structure DiffStats where
  lines_added : Nat := 0
  lines_removed : Nat := 0
  files_changed : Nat := 0
  hunks_count : Nat := 0
deriving DecidableEq

structure FileMetadata where
  mode : Option String := none
  is_binary : Bool := false
  type : FileType := FileType.UNKNOWN
deriving DecidableEq

structure DiffMetadata where
  branch : Option String := none
  tags : List String := []
  custom_attributes : List (String × String) := []
deriving DecidableEq

/-- DiffElement.  The non-owning `parent` back-reference of the source is
not represented (it is set only by add_children and never read by the
operations under study); `children` starts empty, as in the constructor. -/
inductive DiffElement where
  | mk (element_type : DiffType) (stats : DiffStats) (identifier : List Char)
      (change_type : ChangeType) (metadata : Option FileMetadata)
      (children : List DiffElement)

def DiffElement.element_type : DiffElement → DiffType
  | .mk t _ _ _ _ _ => t

def DiffElement.stats : DiffElement → DiffStats
  | .mk _ s _ _ _ _ => s

def DiffElement.identifier : DiffElement → List Char
  | .mk _ _ i _ _ _ => i

def DiffElement.change_type : DiffElement → ChangeType
  | .mk _ _ _ c _ _ => c

def DiffElement.metadata : DiffElement → Option FileMetadata
  | .mk _ _ _ _ m _ => m

def DiffElement.children : DiffElement → List DiffElement
  | .mk _ _ _ _ _ cs => cs

/-- Diff: the commit linkage, the optional metadata and the ordered list of
root elements (`_elements`). -/
structure Diff where
  commit_hexsha : String
  metadata : Option DiffMetadata := none
  elements : List DiffElement := []

/-! ### The per-file change descriptor (GitPython git.Diff)

Each attribute the source reads is carried as an `Except String` value:
GitPython materialises these lazily, so any individual access can raise,
and Diff._create_file_element catches every exception.  `copied_file` is
present on the real descriptor but never read by the source;
`a_content`/`b_content` carry the prior and new file contents (the blobs),
which the source never reads either — they only serve to state the
line-count heuristic. -/

structure GitDiffItem where
  new_file : Except String Bool
  deleted_file : Except String Bool
  renamed_file : Except String Bool
  copied_file : Except String Bool
  a_path : Except String (Option String)
  b_path : Except String (Option String)
  b_mode : Except String (Option Nat)
  diff : Except String String
  a_content : Option String := none
  b_content : Option String := none

/-- Line classification of Diff._calculate_lines_stats: an added line
starts with a plus sign but not three of them. -/
def isAddedLine (line : List Char) : Bool :=
  isPrefixChars "+".data line && !isPrefixChars "+++".data line

/-- A removed line starts with a minus sign but not three of them. -/
def isRemovedLine (line : List Char) : Bool :=
  isPrefixChars "-".data line && !isPrefixChars "---".data line

/-- Diff._calculate_lines_stats.  The whole body sits in a try/except that
returns the zero counts when the `diff` attribute access raises, and an
empty payload is falsy, so the loop is skipped. -/
def calcLinesStats (d : Except String String) : Nat × Nat :=
  match d with
  | .error _ => (0, 0)
  | .ok s =>
    if s = "" then (0, 0)
    else
      (pySplit '\n' s.data).foldl
        (fun acc line =>
          if isAddedLine line then (acc.1 + 1, acc.2)
          else if isRemovedLine line then (acc.1, acc.2 + 1)
          else acc)
        (0, 0)

/-- Diff._is_binary_file: a NUL byte among the first 1024 bytes of the
payload; false for an absent/empty payload or when the access raises. -/
def isBinaryFile (d : Except String String) : Bool :=
  match d with
  | .error _ => false
  | .ok s =>
    if s = "" then false
    else (s.data.take 1024).any (fun c => c = '\x00')

/-- Python `a_path or b_path`: the right operand is used when the left is
None or the empty string (and is not evaluated otherwise, which matters
because each access can raise). -/
def pyOrPath (a : Option String) (b : Option String) : Option String :=
  match a with
  | some s => if s = "" then b else some s
  | none => b

/-- Python rendering of an optional string inside an f-string: None prints
as the four-letter word None. -/
def pyFmtOpt (o : Option String) : String :=
  match o with
  | some s => s
  | none => "None"

/-- The f-string of the rename branch. -/
def pyFmtRename (a b : Option String) : String :=
  pyFmtOpt a ++ " -> " ++ pyFmtOpt b

/-- Python `file_path if file_path else ""`: None and the empty string both
collapse to the empty identifier. -/
def pyIdent (fp : Option String) : List Char :=
  match fp with
  | some s => s.data
  | none => []

/-- Python `str(b_mode) if b_mode else None`: a zero mode is falsy. -/
def pyModeStr (bm : Option Nat) : Option String :=
  match bm with
  | some m => if m = 0 then none else some (toString m)
  | none => none

/-- The if/elif chain opening the try-block of Diff._create_file_element
(its lines 154-165): decide the change type and the file path, reading the
descriptor attributes exactly in the order the source evaluates them
(the lazily evaluated `a_path or b_path` reads b_path only when a_path is
falsy). -/
def resolveChangePath (it : GitDiffItem) : Except String (ChangeType × Option String) :=
  match it.new_file with
  | .error err => .error err
  | .ok true =>
    match it.b_path with
    | .error err => .error err
    | .ok bp => .ok (ChangeType.ADDED, bp)
  | .ok false =>
    match it.deleted_file with
    | .error err => .error err
    | .ok true =>
      match it.a_path with
      | .error err => .error err
      | .ok ap => .ok (ChangeType.REMOVED, ap)
    | .ok false =>
      match it.renamed_file with
      | .error err => .error err
      | .ok true =>
        match it.a_path with
        | .error err => .error err
        | .ok ap =>
          match it.b_path with
          | .error err => .error err
          | .ok bp => .ok (ChangeType.RENAMED, some (pyFmtRename ap bp))
      | .ok false =>
        match it.a_path with
        | .error err => .error err
        | .ok (some s) =>
          if s = "" then
            match it.b_path with
            | .error err => .error err
            | .ok bp => .ok (ChangeType.MODIFIED, bp)
          else .ok (ChangeType.MODIFIED, some s)
        | .ok none =>
          match it.b_path with
          | .error err => .error err
          | .ok bp => .ok (ChangeType.MODIFIED, bp)

/-- The try-block body of Diff._create_file_element: the branch decision
above, then the classification, the line statistics, the stats record, the
mode read and the metadata, finally the element. -/
def createFileElementE (guess : String → Option String) (it : GitDiffItem) :
    Except String DiffElement :=
  match resolveChangePath it with
  | .error err => .error err
  | .ok (change_type, file_path) =>
    let file_type := FileType.fromPathToContent guess file_path
    let st := calcLinesStats it.diff
    let file_stats : DiffStats :=
      { lines_added := st.1
        lines_removed := st.2
        files_changed := 1
        hunks_count := if st.1 > 0 || st.2 > 0 then 1 else 0 }
    match it.b_mode with
    | .error err => .error err
    | .ok bm =>
      let file_metadata : FileMetadata :=
        { mode := pyModeStr bm
          is_binary := isBinaryFile it.diff
          type := file_type }
      .ok (DiffElement.mk DiffType.FILE file_stats (pyIdent file_path) change_type
        (some file_metadata) [])

/-- Diff._create_file_element: the except-branch turns any raised error
into None. -/
def createFileElement (guess : String → Option String) (it : GitDiffItem) :
    Option DiffElement :=
  match createFileElementE guess it with
  | .ok e => some e
  | .error _ => none

/-- Diff._load_diff_elements, taking the change descriptors produced by
the VCS collaborator (the parent-versus-commit diff) as input. -/
def loadDiffElements (guess : String → Option String) (items : List GitDiffItem) :
    List (Option DiffElement) :=
  items.map (createFileElement guess)

/-- Diff.to_diff: fresh diff, metadata stub, then the append loop that
skips the None elements. -/
def toDiff (guess : String → Option String) (hexsha : String)
    (items : List GitDiffItem) : Diff :=
  { commit_hexsha := hexsha
    metadata := some { branch := none, tags := [], custom_attributes := [] }
    elements :=
      (loadDiffElements guess items).foldl
        (fun acc o =>
          match o with
          | some e => acc ++ [e]
          | none => acc)
        [] }

/-- Diff.get_elements_by_type (a filter over the root elements). -/
def getElementsByType (d : Diff) (t : DiffType) : List DiffElement :=
  d.elements.filter (fun e => e.element_type = t)

/-- The Python set of identifiers in Diff.get_aggregated_stats, modelled
as a duplicate-free insertion list whose length is the size of the set. -/
def setAdd (s : List (List Char)) (x : List Char) : List (List Char) :=
  if x ∈ s then s else s ++ [x]

/-- Diff.get_aggregated_stats: one pass over the FILE-type root elements,
accumulating the three sums and the set of identifiers. -/
def getAggregatedStats (d : Diff) : DiffStats :=
  let r :=
    (getElementsByType d DiffType.FILE).foldl
      (fun (acc : Nat × Nat × Nat × List (List Char)) e =>
        (acc.1 + e.stats.lines_added, acc.2.1 + e.stats.lines_removed,
         acc.2.2.1 + e.stats.hunks_count, setAdd acc.2.2.2 e.identifier))
      (0, 0, 0, [])
  { lines_added := r.1
    lines_removed := r.2.1
    files_changed := r.2.2.2.length
    hunks_count := r.2.2.1 }

/-! ### The per-file line-count heuristic of the spec (spec-side definition,
stated from the words of the spec for comparison with calcLinesStats) -/

/-- Number of text lines of a file body: newline count, plus one for a
trailing unterminated line. -/
def lineCount (s : String) : Nat :=
  if s = "" then 0
  else (s.data.filter (fun c => c = '\n')).length +
    (if s.data.getLast? = some '\n' then 0 else 1)

/-- The heuristic of the spec: no prior content gives (new count, 0); no new
content gives (0, old count); otherwise the clamped difference in each
direction (Nat subtraction is exactly max 0 of the difference). -/
def specLinesHeuristic (aContent bContent : Option String) : Nat × Nat :=
  match aContent with
  | none => ((bContent.map lineCount).getD 0, 0)
  | some a =>
    match bContent with
    | none => (0, lineCount a)
    | some b => (lineCount b - lineCount a, lineCount a - lineCount b)

/-! ### diffetl.extract : raw records, batch and extractor -/

/-- The fields of a raw VCS commit that the core reads (the GitPython
commit object behind RawCommit and transform.Commit). -/
structure GitCommitData where
  hexsha : String
  message : String
  author_name : Option String := none
  author_email : Option String := none
  parents_hexsha : List String := []
deriving DecidableEq

structure SourceInfo where
  repo_url : String
  branch : String
deriving DecidableEq

structure ExtractMetadata where
  batch_id : Nat
  load_timestamp : Nat
deriving DecidableEq

structure RawCommit where
  git_commit : GitCommitData
  extract_metadata : ExtractMetadata
deriving DecidableEq

/-- RawCommitsBatch (UUIDs and wall-clock timestamps are modelled as
opaque numbers; the dataclass defaults are `status = "loading"`,
no error, no commits). -/
structure RawCommitsBatch where
  load_id : Nat
  load_timestamp : Nat
  source_info : SourceInfo
  raw_commits : List RawCommit := []
  status : String := "loading"
  error : Option String := none
deriving DecidableEq

/-- RawCommitsBatch.add_commits: wrap each git commit and append. -/
def RawCommitsBatch.addCommits (b : RawCommitsBatch) (gcs : List GitCommitData) :
    RawCommitsBatch :=
  { b with
    raw_commits := b.raw_commits ++ gcs.map (fun gc =>
      { git_commit := gc
        extract_metadata := { batch_id := b.load_id, load_timestamp := b.load_timestamp } }) }

/-- RawCommitsBatch.mark_failed. -/
def RawCommitsBatch.markFailed (b : RawCommitsBatch) (err : String) : RawCommitsBatch :=
  { b with error := some err, status := "failed" }

/-- RawCommitsBatch.validate. -/
def RawCommitsBatch.validate (b : RawCommitsBatch) (expected actual : Nat) :
    RawCommitsBatch :=
  if expected ≠ actual then
    b.markFailed ("Expected " ++ toString expected ++ ", got " ++ toString actual)
  else { b with status := "success" }

/-- What the try-block of LocalGitRepository.extract_commits_batch
observes of its collaborator and surroundings: either
`GitClient.list_commits` returns a commit page and a new cursor, or
it raises, or an exception is raised later, inside `add_commits`, after a
prefix of the page has already been appended (the except-clause catches
exceptions raised at any point of the try body). -/
inductive ClientResult where
  | ok (commits : List GitCommitData) (newLastSha : Option String)
  | raised (err : String)
  | raisedDuringAdd (appended : List GitCommitData) (err : String)

/-- LocalGitRepository.extract_commits_batch: build a fresh batch, then in
the try-block list, append and validate, returning the new cursor; on any
exception mark the batch failed with the exception text and return the
previous cursor unchanged. -/
def extractCommitsBatch (loadId loadTimestamp : Nat) (repoUrl : String)
    (batchSize : Nat) (branch : String) (lastSha : Option String)
    (clientResult : ClientResult) : RawCommitsBatch × Option String :=
  let batch : RawCommitsBatch :=
    { load_id := loadId
      load_timestamp := loadTimestamp
      source_info := { repo_url := repoUrl, branch := branch } }
  match clientResult with
  | .ok commits newLastSha =>
    let b1 := batch.addCommits commits
    let b2 := b1.validate batchSize commits.length
    (b2, newLastSha)
  | .raised err => (batch.markFailed err, lastSha)
  | .raisedDuringAdd appended err =>
    ((batch.addCommits appended).markFailed err, lastSha)

/-! ### diffetl.transform.commit : commits and the commit graph -/

structure Author where
  name : Option String
  email : Option String
deriving DecidableEq

/-- transform.Commit.  The CommitMetadata annotation object (branch/tag
discovery against the live repository) is an out-of-scope collaborator
result and is not consulted by any operation studied here, so it is not
carried. -/
structure Commit where
  hexsha : String
  message : String
  author : Author
  parents_hexsha : List String

/-- transform.CommitElement (identity is the commit id in the source;
the model never relies on Python equality). -/
structure CommitElement where
  commit : Commit
  diff : Option Diff := none

/-- Python dict assignment `m[k] = v`: replace the value at an existing
key, else append a new entry. -/
def dictInsert (m : List (String × CommitElement)) (k : String) (v : CommitElement) :
    List (String × CommitElement) :=
  if m.any (fun p => p.1 = k) then
    m.map (fun p => if p.1 = k then (k, v) else p)
  else m ++ [(k, v)]

/-- Python `dict.get`. -/
def dictGet (m : List (String × CommitElement)) (k : String) : Option CommitElement :=
  (m.find? (fun p => p.1 = k)).map (fun p => p.2)

/-- The dict comprehension of CommitGraph.__init__, keyed by each
own hexsha of the element. -/
structure CommitGraph where
  commit_map : List (String × CommitElement)

def CommitGraph.ofElements (els : List CommitElement) : CommitGraph :=
  { commit_map := els.foldl (fun m e => dictInsert m e.commit.hexsha e) [] }

/-- CommitGraph.get. -/
def CommitGraph.get (g : CommitGraph) (hexsha : String) : Option CommitElement :=
  dictGet g.commit_map hexsha

/-- CommitElement.iter_parents: walk the parent ids of the commit in order,
look each up in the map, and yield the element when the lookup returns
one (a present CommitElement is always truthy, a missing key gives the
falsy None). -/
def CommitElement.iterParents (e : CommitElement)
    (commitMap : List (String × CommitElement)) : List CommitElement :=
  e.commit.parents_hexsha.foldl
    (fun acc ph =>
      match dictGet commitMap ph with
      | some pe => acc ++ [pe]
      | none => acc)
    []

/-- CommitGraph.iter_parents delegates to the element. -/
def CommitGraph.iterParents (g : CommitGraph) (e : CommitElement) : List CommitElement :=
  e.iterParents g.commit_map

/-! ### Helper lemmas -/

/-- Declarative counts for the line-statistics loop. -/
def countAddedLines (s : String) : Nat :=
  ((pySplit '\n' s.data).filter isAddedLine).length

def countRemovedLines (s : String) : Nat :=
  ((pySplit '\n' s.data).filter isRemovedLine).length

lemma isAddedLine_not_removed (l : List Char) (h : isAddedLine l = true) :
    isRemovedLine l = false := by
  cases l with
  | nil => simp [isAddedLine, isPrefixChars] at h
  | cons c cs =>
    simp only [isAddedLine, isPrefixChars, Bool.and_eq_true, decide_eq_true_eq] at h
    obtain ⟨⟨hc, -⟩, -⟩ := h
    subst hc
    simp [isRemovedLine, isPrefixChars]

lemma linesFoldl_eq (ls : List (List Char)) :
    ∀ a r : Nat,
      ls.foldl
        (fun acc line =>
          if isAddedLine line then (acc.1 + 1, acc.2)
          else if isRemovedLine line then (acc.1, acc.2 + 1)
          else acc)
        (a, r)
      = (a + (ls.filter isAddedLine).length, r + (ls.filter isRemovedLine).length) := by
  induction ls with
  | nil => intro a r; simp
  | cons l tl ih =>
    intro a r
    by_cases hA : isAddedLine l = true
    · have hR := isAddedLine_not_removed l hA
      simp [hA, hR, ih, Nat.add_assoc, Nat.add_comm 1]
    · by_cases hR : isRemovedLine l = true
      · simp [hA, hR, ih, Nat.add_assoc, Nat.add_comm 1]
      · simp [hA, hR, ih]

lemma calcLinesStats_ok (s : String) :
    calcLinesStats (Except.ok s) = (countAddedLines s, countRemovedLines s) := by
  by_cases h : s = ""
  · subst h
    simp [calcLinesStats, countAddedLines, countRemovedLines, pySplit,
      isAddedLine, isRemovedLine, isPrefixChars]
  · simp only [calcLinesStats, h, if_false, countAddedLines, countRemovedLines]
    simpa using linesFoldl_eq (pySplit '\n' s.data) 0 0

lemma calcLinesStats_error (err : String) :
    calcLinesStats (Except.error err) = (0, 0) := rfl

/-- Every element produced by Diff._create_file_element is a childless
FILE node whose stats come from the patch payload alone and whose
metadata records the mode, the binary probe and the path classification. -/
lemma createFileElement_shape (g : String → Option String) (it : GitDiffItem)
    (e : DiffElement) (h : createFileElement g it = some e) :
    ∃ (ct : ChangeType) (fp : Option String) (bm : Option Nat),
      resolveChangePath it = .ok (ct, fp) ∧ it.b_mode = .ok bm ∧
      e = DiffElement.mk DiffType.FILE
        { lines_added := (calcLinesStats it.diff).1
          lines_removed := (calcLinesStats it.diff).2
          files_changed := 1
          hunks_count :=
            if (calcLinesStats it.diff).1 > 0 || (calcLinesStats it.diff).2 > 0 then 1
            else 0 }
        (pyIdent fp) ct
        (some { mode := pyModeStr bm, is_binary := isBinaryFile it.diff,
                type := FileType.fromPathToContent g fp }) [] := by
  unfold createFileElement createFileElementE at h
  cases hr : resolveChangePath it with
  | error err => rw [hr] at h; exact absurd h (by simp)
  | ok pr =>
    obtain ⟨ct, fp⟩ := pr
    rw [hr] at h
    cases hb : it.b_mode with
    | error err2 => rw [hb] at h; exact absurd h (by simp)
    | ok bm =>
      rw [hb] at h
      simp only [Option.some.injEq] at h
      exact ⟨ct, fp, bm, rfl, rfl, h.symm⟩

lemma resolveChangePath_added (it : GitDiffItem) (bp : Option String)
    (hn : it.new_file = .ok true) (hb : it.b_path = .ok bp) :
    resolveChangePath it = .ok (ChangeType.ADDED, bp) := by
  unfold resolveChangePath
  rw [hn, hb]

lemma resolveChangePath_removed (it : GitDiffItem) (ap : Option String)
    (hn : it.new_file = .ok false) (hd : it.deleted_file = .ok true)
    (ha : it.a_path = .ok ap) :
    resolveChangePath it = .ok (ChangeType.REMOVED, ap) := by
  unfold resolveChangePath
  rw [hn, hd, ha]

lemma resolveChangePath_renamed (it : GitDiffItem) (ap bp : Option String)
    (hn : it.new_file = .ok false) (hd : it.deleted_file = .ok false)
    (hr : it.renamed_file = .ok true) (ha : it.a_path = .ok ap)
    (hb : it.b_path = .ok bp) :
    resolveChangePath it = .ok (ChangeType.RENAMED, some (pyFmtRename ap bp)) := by
  unfold resolveChangePath
  rw [hn, hd, hr, ha, hb]

lemma resolveChangePath_modified (it : GitDiffItem) (ap bp : Option String)
    (hn : it.new_file = .ok false) (hd : it.deleted_file = .ok false)
    (hr : it.renamed_file = .ok false) (ha : it.a_path = .ok ap)
    (hb : it.b_path = .ok bp) :
    resolveChangePath it = .ok (ChangeType.MODIFIED, pyOrPath ap bp) := by
  unfold resolveChangePath
  rw [hn, hd, hr, ha]
  cases ap with
  | none => simp [hb, pyOrPath]
  | some s =>
    by_cases hs : s = ""
    · subst hs; simp [hb, pyOrPath]
    · simp [hs, pyOrPath]

/-- The skip-None append loop of Diff.to_diff is filterMap. -/
lemma foldlSkipNone (os : List (Option DiffElement)) :
    ∀ acc : List DiffElement,
      os.foldl
        (fun acc o =>
          match o with
          | some e => acc ++ [e]
          | none => acc)
        acc
      = acc ++ os.filterMap id := by
  induction os with
  | nil => intro acc; simp
  | cons o tl ih =>
    intro acc
    cases o with
    | none => simp [ih]
    | some e => simp [ih]

lemma toDiff_elements (g : String → Option String) (hexsha : String)
    (items : List GitDiffItem) :
    (toDiff g hexsha items).elements = items.filterMap (createFileElement g) := by
  simp [toDiff, loadDiffElements, foldlSkipNone, List.filterMap_map, Function.comp]

lemma setAdd_toFinset (s : List (List Char)) (x : List Char) :
    (setAdd s x).toFinset = insert x s.toFinset := by
  unfold setAdd
  by_cases hx : x ∈ s
  · rw [if_pos hx]
    exact (Finset.insert_eq_self.mpr (List.mem_toFinset.mpr hx)).symm
  · rw [if_neg hx]
    simp [List.toFinset_append, Finset.insert_eq, Finset.union_comm]

lemma setAdd_nodup (s : List (List Char)) (x : List Char) (h : s.Nodup) :
    (setAdd s x).Nodup := by
  unfold setAdd
  by_cases hx : x ∈ s
  · rwa [if_pos hx]
  · rw [if_neg hx]
    simpa [List.nodup_append] using ⟨h, hx⟩

/-- The identifier-set accumulator of get_aggregated_stats: folding setAdd
keeps the list duplicate-free and collects exactly the union. -/
lemma setAddFold (l : List (List Char)) :
    ∀ s : List (List Char), s.Nodup →
      ((l.foldl setAdd s).Nodup ∧ (l.foldl setAdd s).toFinset = s.toFinset ∪ l.toFinset) := by
  induction l with
  | nil => intro s hs; simp [hs]
  | cons x tl ih =>
    intro s hs
    obtain ⟨h1, h2⟩ := ih (setAdd s x) (setAdd_nodup s x hs)
    refine ⟨h1, ?_⟩
    rw [List.foldl_cons, h2, setAdd_toFinset]
    simp [Finset.union_comm, Finset.union_assoc, Finset.union_left_comm]

/-- The four accumulators of the aggregation loop, split into the three
sums and the identifier set. -/
lemma aggFold (l : List DiffElement) :
    ∀ (a b c : Nat) (s : List (List Char)),
      l.foldl
        (fun (acc : Nat × Nat × Nat × List (List Char)) e =>
          (acc.1 + e.stats.lines_added, acc.2.1 + e.stats.lines_removed,
           acc.2.2.1 + e.stats.hunks_count, setAdd acc.2.2.2 e.identifier))
        (a, b, c, s)
      = (a + (l.map (fun e => e.stats.lines_added)).sum,
         b + (l.map (fun e => e.stats.lines_removed)).sum,
         c + (l.map (fun e => e.stats.hunks_count)).sum,
         (l.map DiffElement.identifier).foldl setAdd s) := by
  induction l with
  | nil => intro a b c s; simp
  | cons e tl ih =>
    intro a b c s
    simp [ih, Nat.add_assoc]

/-- Characterization of Diff.get_aggregated_stats: the three sums over the
FILE-type root elements, and the number of distinct identifiers among
them. -/
lemma getAggregatedStats_eq (d : Diff) :
    getAggregatedStats d =
      { lines_added :=
          ((getElementsByType d DiffType.FILE).map (fun e => e.stats.lines_added)).sum
        lines_removed :=
          ((getElementsByType d DiffType.FILE).map (fun e => e.stats.lines_removed)).sum
        files_changed :=
          ((getElementsByType d DiffType.FILE).map DiffElement.identifier).toFinset.card
        hunks_count :=
          ((getElementsByType d DiffType.FILE).map (fun e => e.stats.hunks_count)).sum } := by
  unfold getAggregatedStats
  rw [aggFold]
  obtain ⟨hn, hf⟩ :=
    setAddFold ((getElementsByType d DiffType.FILE).map DiffElement.identifier) [] (by simp)
  have hlen :
      (((getElementsByType d DiffType.FILE).map DiffElement.identifier).foldl
          setAdd []).length
        = ((getElementsByType d DiffType.FILE).map DiffElement.identifier).toFinset.card := by
    rw [← List.toFinset_card_of_nodup hn, hf]
    simp
  simp [hlen]

/-- The yield loop of CommitElement.iter_parents is filterMap over the
parent ids. -/
lemma iterParentsFold (phs : List String) (m : List (String × CommitElement)) :
    ∀ acc : List CommitElement,
      phs.foldl
        (fun acc ph =>
          match dictGet m ph with
          | some pe => acc ++ [pe]
          | none => acc)
        acc
      = acc ++ phs.filterMap (dictGet m) := by
  induction phs with
  | nil => intro acc; simp
  | cons ph tl ih =>
    intro acc
    cases hg : dictGet m ph with
    | none => simp [hg, ih]
    | some pe => simp [hg, ih]

lemma iterParents_eq (g : CommitGraph) (e : CommitElement) :
    g.iterParents e = e.commit.parents_hexsha.filterMap g.get := by
  unfold CommitGraph.iterParents CommitElement.iterParents CommitGraph.get
  simpa using iterParentsFold e.commit.parents_hexsha g.commit_map []

/-- Invariant of the dict comprehension of CommitGraph.__init__: every
entry is keyed by its own hexsha of the element. -/
def keyedBySelf (m : List (String × CommitElement)) : Prop :=
  ∀ p ∈ m, p.2.commit.hexsha = p.1

lemma dictInsert_keyed (m : List (String × CommitElement)) (e : CommitElement)
    (h : keyedBySelf m) : keyedBySelf (dictInsert m e.commit.hexsha e) := by
  unfold dictInsert
  by_cases hk : m.any (fun p => p.1 = e.commit.hexsha)
  · rw [if_pos hk]
    intro p hp
    obtain ⟨q, hq, hpq⟩ := List.mem_map.mp hp
    by_cases hq1 : q.1 = e.commit.hexsha
    · rw [if_pos hq1] at hpq
      subst hpq
      rfl
    · rw [if_neg hq1] at hpq
      subst hpq
      exact h q hq
  · rw [if_neg hk]
    intro p hp
    rcases List.mem_append.mp hp with hp1 | hp2
    · exact h p hp1
    · rcases List.mem_singleton.mp hp2 with rfl
      rfl

lemma ofElements_keyed (els : List CommitElement) :
    keyedBySelf (CommitGraph.ofElements els).commit_map := by
  unfold CommitGraph.ofElements
  suffices hgen : ∀ m : List (String × CommitElement), keyedBySelf m →
      keyedBySelf (els.foldl (fun m e => dictInsert m e.commit.hexsha e) m) by
    exact hgen [] (by intro p hp; simp at hp)
  induction els with
  | nil => intro m hm; exact hm
  | cons e tl ih =>
    intro m hm
    exact ih (dictInsert m e.commit.hexsha e) (dictInsert_keyed m e hm)

lemma dictGet_keyed (m : List (String × CommitElement)) (h : keyedBySelf m)
    (k : String) (ce : CommitElement) (hg : dictGet m k = some ce) :
    ce.commit.hexsha = k := by
  unfold dictGet at hg
  cases hf : m.find? (fun p => p.1 = k) with
  | none => rw [hf] at hg; cases hg
  | some p =>
    rw [hf] at hg
    have hpe : p.2 = ce := by simpa using hg
    have hmem := List.mem_of_find?_eq_some hf
    have hkey : p.1 = k := by simpa using List.find?_some hf
    rw [← hpe, h p hmem, hkey]

/-- Looking up a graph built from elements returns, when it returns at
all, an element whose hexsha is the requested key. -/
lemma ofElements_get_hexsha (els : List CommitElement) (k : String)
    (ce : CommitElement) (hg : (CommitGraph.ofElements els).get k = some ce) :
    ce.commit.hexsha = k :=
  dictGet_keyed _ (ofElements_keyed els) k ce hg

/-! ### Concrete fixtures used by counterexamples and witnesses -/

/-- A MIME guesser that resolves nothing; the claims below that use it do
not depend on the MIME stage. -/
def guessNone : String → Option String := fun _ => none

/-- A modified file whose old and new versions both have two lines, with
one line changed; the patch payload is the real unified diff of these
contents. -/
def modTwoLineItem : GitDiffItem :=
  { new_file := .ok false
    deleted_file := .ok false
    renamed_file := .ok false
    copied_file := .ok false
    a_path := .ok (some "src/core.py")
    b_path := .ok (some "src/core.py")
    b_mode := .ok none
    diff := .ok "@@ -1,2 +1,2 @@\n alpha\n-beta\n+gamma\n"
    a_content := some "alpha\nbeta\n"
    b_content := some "alpha\ngamma\n" }

/-- The element built from modTwoLineItem. -/
def modTwoLineElem : DiffElement :=
  DiffElement.mk DiffType.FILE
    { lines_added := 1, lines_removed := 1, files_changed := 1, hunks_count := 1 }
    "src/core.py".data ChangeType.MODIFIED
    (some { mode := none, is_binary := false, type := FileType.UNKNOWN }) []

/-- A new file whose patch payload carries a NUL byte (the binary probe of
the source checks the first 1024 payload bytes for NUL) together with a
line starting with a plus sign. -/
def nulPayloadItem : GitDiffItem :=
  { new_file := .ok true
    deleted_file := .ok false
    renamed_file := .ok false
    copied_file := .ok false
    a_path := .ok none
    b_path := .ok (some "assets/logo.bin")
    b_mode := .ok none
    diff := .ok "+x\x00y"
    a_content := none
    b_content := some "x\x00y" }

/-- The element built from nulPayloadItem. -/
def nulPayloadElem : DiffElement :=
  DiffElement.mk DiffType.FILE
    { lines_added := 1, lines_removed := 0, files_changed := 1, hunks_count := 1 }
    "assets/logo.bin".data ChangeType.ADDED
    (some { mode := none, is_binary := true, type := FileType.UNKNOWN }) []

/-- A descriptor whose VCS classification is copied: the copied flag is
set and the new/deleted/renamed flags are clear. -/
def copiedItem : GitDiffItem :=
  { new_file := .ok false
    deleted_file := .ok false
    renamed_file := .ok false
    copied_file := .ok true
    a_path := .ok (some "src/a.py")
    b_path := .ok (some "src/b.py")
    b_mode := .ok none
    diff := .ok ""
    a_content := some "x\n"
    b_content := some "x\n" }

/-- A renamed file. -/
def renamedItem : GitDiffItem :=
  { new_file := .ok false
    deleted_file := .ok false
    renamed_file := .ok true
    copied_file := .ok false
    a_path := .ok (some "old.py")
    b_path := .ok (some "new.py")
    b_mode := .ok none
    diff := .ok ""
    a_content := some "x\n"
    b_content := some "x\n" }

/-- The element built from renamedItem. -/
def renamedElem : DiffElement :=
  DiffElement.mk DiffType.FILE
    { lines_added := 0, lines_removed := 0, files_changed := 1, hunks_count := 0 }
    "old.py -> new.py".data ChangeType.RENAMED
    (some { mode := none, is_binary := false, type := FileType.UNKNOWN }) []

/-! ### C1 -/

/-- C1, counterexample.  The claim states that per-file line statistics
follow the line-count heuristic of the spec of the old/new contents.  On a
modified file whose old and new versions both count two lines the
heuristic yields (0, 0), while the source counts the '+' and '-' lines of
the unified-diff payload and yields (1, 1). -/
theorem C1_counterexample :
    calcLinesStats modTwoLineItem.diff
      ≠ specLinesHeuristic modTwoLineItem.a_content modTwoLineItem.b_content := by
  decide

/-- C1 (amended): the per-file line statistics are computed from the
unified-diff patch payload — lines_added counts payload lines starting
with a plus sign (excluding the +++ header), lines_removed counts payload
lines starting with a minus sign (excluding the --- header) — and both
are 0 when the payload access raises. -/
theorem C1_amended_stats_from_patch (g : String → Option String) (it : GitDiffItem)
    (e : DiffElement) (h : createFileElement g it = some e) :
    (∀ s, it.diff = Except.ok s →
      e.stats.lines_added = countAddedLines s ∧ e.stats.lines_removed = countRemovedLines s)
    ∧ (∀ err, it.diff = Except.error err →
      e.stats.lines_added = 0 ∧ e.stats.lines_removed = 0) := by
  obtain ⟨ct, fp, bm, hr, hb, he⟩ := createFileElement_shape g it e h
  subst he
  constructor
  · intro s hs
    simp [DiffElement.stats, hs, calcLinesStats_ok]
  · intro err hs
    simp [DiffElement.stats, hs, calcLinesStats_error]

/-- C1 witness: the amended theorem applied to the concrete modified
file. -/
theorem C1_amended_stats_from_patch_witness :
    modTwoLineElem.stats.lines_added
        = countAddedLines "@@ -1,2 +1,2 @@\n alpha\n-beta\n+gamma\n"
    ∧ modTwoLineElem.stats.lines_removed
        = countRemovedLines "@@ -1,2 +1,2 @@\n alpha\n-beta\n+gamma\n" :=
  (C1_amended_stats_from_patch guessNone modTwoLineItem modTwoLineElem rfl).1 _ rfl

/-! ### C2 -/

/-- C2, counterexample.  The claim states that a binary file reports zero
added/removed lines and zero hunks.  The source never consults the binary
flag when computing stats: a payload containing a NUL byte (hence
classified binary) and a '+' line yields lines_added = 1 and
hunks_count = 1. -/
theorem C2_counterexample :
    (createFileElement guessNone nulPayloadItem).map
        (fun e => (e.metadata.map FileMetadata.is_binary, e.stats.lines_added,
          e.stats.lines_removed, e.stats.hunks_count))
      = some (some true, 1, 0, 1)
    ∧ (1 : Nat) ≠ 0 := by
  exact ⟨rfl, by decide⟩

/-- C2 (amended): the line counts of the element and hunk flag are computed
from the patch payload alone — without consulting the binary flag — and
hunks_count is 1 exactly when the element has at least one counted added
or removed line, binary or not. -/
theorem C2_amended_stats_ignore_binary (g : String → Option String) (it : GitDiffItem)
    (e : DiffElement) (h : createFileElement g it = some e) :
    e.stats.lines_added = (calcLinesStats it.diff).1
    ∧ e.stats.lines_removed = (calcLinesStats it.diff).2
    ∧ e.stats.hunks_count =
        (if (calcLinesStats it.diff).1 > 0 || (calcLinesStats it.diff).2 > 0 then 1 else 0)
    ∧ e.stats.hunks_count =
        (if e.stats.lines_added > 0 || e.stats.lines_removed > 0 then 1 else 0) := by
  obtain ⟨ct, fp, bm, hr, hb, he⟩ := createFileElement_shape g it e h
  subst he
  simp [DiffElement.stats]

/-- C2 witness: the amended theorem applied to the NUL-payload (binary)
file. -/
theorem C2_amended_stats_ignore_binary_witness :
    nulPayloadElem.stats.lines_added = (calcLinesStats nulPayloadItem.diff).1
    ∧ nulPayloadElem.stats.lines_removed = (calcLinesStats nulPayloadItem.diff).2
    ∧ nulPayloadElem.stats.hunks_count =
        (if (calcLinesStats nulPayloadItem.diff).1 > 0
            || (calcLinesStats nulPayloadItem.diff).2 > 0 then 1 else 0)
    ∧ nulPayloadElem.stats.hunks_count =
        (if nulPayloadElem.stats.lines_added > 0
            || nulPayloadElem.stats.lines_removed > 0 then 1 else 0) :=
  C2_amended_stats_ignore_binary guessNone nulPayloadItem nulPayloadElem rfl

/-! ### C3 -/

/-- C3, counterexample.  The claim states that validate_message of the
empty string reports message_is_within_length = true; in the source the
length check is gated on non-emptiness and the empty string yields
false. -/
theorem C3_counterexample :
    ¬ (validateMessage maxLengthCommitDefault "").message_is_within_length = true := by
  decide

/-- C3 (amended): validate_message of the empty string returns all four
flags false — the emptiness result gates the other three checks — and for
any message that fails the emptiness check the whole result is the
all-false record, always returned as one record of four flags. -/
theorem C3_amended_empty_all_false :
    (∀ maxLen, validateMessage maxLen "" = ⟨false, false, false, false⟩)
    ∧ (∀ maxLen msg, (validateMessage maxLen msg).message_is_not_empty = false →
        validateMessage maxLen msg = ⟨false, false, false, false⟩) := by
  constructor
  · intro maxLen
    rfl
  · intro maxLen msg h
    simp only [validateMessage] at h ⊢
    rw [h]
    simp

/-- C3 witness: the amended theorem applied to a whitespace-only
message. -/
theorem C3_amended_empty_all_false_witness :
    validateMessage 72 " " = ⟨false, false, false, false⟩ :=
  C3_amended_empty_all_false.2 72 " " (by decide)

/-! ### C4 -/

/-- C4, counterexample.  The claim maps a copied change descriptor to
COPIED; the source has no copied branch, so a descriptor whose only set
flag is copied produces MODIFIED. -/
theorem C4_counterexample :
    (createFileElement guessNone copiedItem).map DiffElement.change_type
      = some ChangeType.MODIFIED
    ∧ ChangeType.MODIFIED ≠ ChangeType.COPIED := by
  exact ⟨rfl, by decide⟩

/-- C4 (amended): the change type is new file to ADDED, deleted to
REMOVED, renamed to RENAMED, and otherwise — copied files included —
MODIFIED; the identifier is the new path for additions, the old path for
deletions, the old-arrow-new string for renames, and otherwise the old
path falling back to the new path when the old path is absent or
empty. -/
theorem C4_amended_change_type_identifier (g : String → Option String)
    (it : GitDiffItem) (e : DiffElement) (h : createFileElement g it = some e) :
    (∀ bp, it.new_file = .ok true → it.b_path = .ok bp →
        e.change_type = ChangeType.ADDED ∧ e.identifier = pyIdent bp)
    ∧ (∀ ap, it.new_file = .ok false → it.deleted_file = .ok true →
        it.a_path = .ok ap →
        e.change_type = ChangeType.REMOVED ∧ e.identifier = pyIdent ap)
    ∧ (∀ ap bp, it.new_file = .ok false → it.deleted_file = .ok false →
        it.renamed_file = .ok true → it.a_path = .ok ap → it.b_path = .ok bp →
        e.change_type = ChangeType.RENAMED
        ∧ e.identifier = (pyFmtRename ap bp).data)
    ∧ (∀ ap bp, it.new_file = .ok false → it.deleted_file = .ok false →
        it.renamed_file = .ok false → it.a_path = .ok ap → it.b_path = .ok bp →
        e.change_type = ChangeType.MODIFIED
        ∧ e.identifier = pyIdent (pyOrPath ap bp)) := by
  obtain ⟨ct, fp, bm, hr, hb, he⟩ := createFileElement_shape g it e h
  subst he
  refine ⟨?_, ?_, ?_, ?_⟩
  · intro bp hn hbp
    have h2 := resolveChangePath_added it bp hn hbp
    rw [hr] at h2
    obtain ⟨h3, h4⟩ : ct = ChangeType.ADDED ∧ fp = bp := by
      simpa using h2
    subst h3; subst h4
    exact ⟨rfl, rfl⟩
  · intro ap hn hd hap
    have h2 := resolveChangePath_removed it ap hn hd hap
    rw [hr] at h2
    obtain ⟨h3, h4⟩ : ct = ChangeType.REMOVED ∧ fp = ap := by
      simpa using h2
    subst h3; subst h4
    exact ⟨rfl, rfl⟩
  · intro ap bp hn hd hrn hap hbp
    have h2 := resolveChangePath_renamed it ap bp hn hd hrn hap hbp
    rw [hr] at h2
    obtain ⟨h3, h4⟩ : ct = ChangeType.RENAMED ∧ fp = some (pyFmtRename ap bp) := by
      simpa using h2
    subst h3; subst h4
    exact ⟨rfl, rfl⟩
  · intro ap bp hn hd hrn hap hbp
    have h2 := resolveChangePath_modified it ap bp hn hd hrn hap hbp
    rw [hr] at h2
    obtain ⟨h3, h4⟩ : ct = ChangeType.MODIFIED ∧ fp = pyOrPath ap bp := by
      simpa using h2
    subst h3; subst h4
    exact ⟨rfl, rfl⟩

/-- C4 witness: the amended theorem applied to the concrete renamed
file. -/
theorem C4_amended_change_type_identifier_witness :
    renamedElem.change_type = ChangeType.RENAMED
    ∧ renamedElem.identifier = (pyFmtRename (some "old.py") (some "new.py")).data :=
  (C4_amended_change_type_identifier guessNone renamedItem renamedElem rfl).2.2.1
    (some "old.py") (some "new.py") rfl rfl rfl rfl rfl

/-! ### C5 -/

/-- C5: path classification returns UNKNOWN for an absent or empty path,
refines the ordered first-match-wins cascade of the spec (test, documentation,
build, config, data, then MIME inference, then UNKNOWN), and classifies
docs/test_helpers.md as DOCUMENTATION — for every MIME guesser, since the
cascade stops before the MIME stage. -/
theorem C5_cascade_order :
    (∀ g, FileType.fromPathToContent g none = FileType.UNKNOWN)
    ∧ (∀ g, FileType.fromPathToContent g (some "") = FileType.UNKNOWN)
    ∧ (∀ g, FileType.fromPathToContent g (some "docs/test_helpers.md")
        = FileType.DOCUMENTATION)
    ∧ (∀ g fp, FileType.fromPathToContent g fp = classifyCascadeSpec g fp) := by
  refine ⟨fun g => rfl, fun g => rfl, fun g => rfl, ?_⟩
  intro g fp
  cases fp with
  | none => rfl
  | some s =>
    by_cases hs : s = ""
    · simp [FileType.fromPathToContent, classifyCascadeSpec, hs]
    · simp only [FileType.fromPathToContent, classifyCascadeSpec, hs, if_false,
        firstMatchRule, cascadeRules]
      split_ifs <;> rfl

/-! ### C6 -/

/-- Three root FILE elements with the stats of the aggregation
fixture and distinct identifiers. -/
def aggExampleDiff : Diff :=
  { commit_hexsha := "c6"
    metadata := none
    elements :=
      [DiffElement.mk DiffType.FILE
        { lines_added := 3, lines_removed := 1, files_changed := 1, hunks_count := 1 }
        "f1".data ChangeType.MODIFIED none [],
       DiffElement.mk DiffType.FILE
        { lines_added := 0, lines_removed := 5, files_changed := 1, hunks_count := 1 }
        "f2".data ChangeType.MODIFIED none [],
       DiffElement.mk DiffType.FILE
        { lines_added := 2, lines_removed := 0, files_changed := 1, hunks_count := 1 }
        "f3".data ChangeType.MODIFIED none []] }

/-- C6: get_aggregated_stats sums lines and hunks over the FILE-type
elements and reports the number of distinct identifiers — not the element
count — as files_changed; on the three-element fixture it yields
files_changed 3, lines_added 5, lines_removed 6. -/
theorem C6_aggregated_stats :
    (∀ d : Diff, getAggregatedStats d =
      { lines_added :=
          ((getElementsByType d DiffType.FILE).map (fun e => e.stats.lines_added)).sum
        lines_removed :=
          ((getElementsByType d DiffType.FILE).map (fun e => e.stats.lines_removed)).sum
        files_changed :=
          ((getElementsByType d DiffType.FILE).map DiffElement.identifier).toFinset.card
        hunks_count :=
          ((getElementsByType d DiffType.FILE).map (fun e => e.stats.hunks_count)).sum })
    ∧ getAggregatedStats aggExampleDiff =
        { lines_added := 5, lines_removed := 6, files_changed := 3, hunks_count := 3 } := by
  exact ⟨getAggregatedStats_eq, by decide⟩

/-! ### C7 -/

/-- A descriptor whose element builds successfully. -/
def readableItem : GitDiffItem :=
  { new_file := .ok true
    deleted_file := .ok false
    renamed_file := .ok false
    copied_file := .ok false
    a_path := .ok none
    b_path := .ok (some "notes.txt")
    b_mode := .ok none
    diff := .ok "+hello\n"
    a_content := none
    b_content := some "hello\n" }

/-- A descriptor every attribute access of which raises (an unreadable
blob): element construction yields None. -/
def unreadableItem : GitDiffItem :=
  { new_file := .error "unreadable blob"
    deleted_file := .error "unreadable blob"
    renamed_file := .error "unreadable blob"
    copied_file := .error "unreadable blob"
    a_path := .error "unreadable blob"
    b_path := .error "unreadable blob"
    b_mode := .error "unreadable blob"
    diff := .error "unreadable blob"
    a_content := none
    b_content := none }

/-- C7: the elements of a diff are exactly the successfully built ones in
order, and when building the element of one file fails the file is dropped
while every other file of the same commit is still processed — no error
propagates, since element construction is total into an optional
result. -/
theorem C7_drop_and_continue :
    (∀ (g : String → Option String) (hexsha : String) (items : List GitDiffItem),
      (toDiff g hexsha items).elements = items.filterMap (createFileElement g))
    ∧ (∀ (g : String → Option String) (hexsha : String)
        (pre : List GitDiffItem) (bad : GitDiffItem) (post : List GitDiffItem),
        createFileElement g bad = none →
        (toDiff g hexsha (pre ++ bad :: post)).elements
          = (toDiff g hexsha pre).elements ++ (toDiff g hexsha post).elements) := by
  constructor
  · exact toDiff_elements
  · intro g hexsha pre bad post hbad
    simp [toDiff_elements, List.filterMap_append, List.filterMap_cons, hbad]

/-- C7 witness: the drop-and-continue conjunct applied to a two-file diff
whose second file is unreadable. -/
theorem C7_drop_and_continue_witness :
    (toDiff guessNone "h" [readableItem, unreadableItem]).elements
      = (toDiff guessNone "h" [readableItem]).elements
        ++ (toDiff guessNone "h" ([] : List GitDiffItem)).elements :=
  C7_drop_and_continue.2 guessNone "h" [readableItem] unreadableItem [] rfl

/-! ### C8 -/

/-- C8: when listing or assembling raises, the exception text is recorded as the
batch error, the batch is marked failed, the previous cursor is
returned unchanged, and the commits appended before the failure stay in
the batch (none when listing itself raised). -/
theorem C8_failure_keeps_cursor (loadId loadTimestamp : Nat) (repoUrl : String)
    (batchSize : Nat) (branch : String) (lastSha : Option String) :
    (∀ err,
      extractCommitsBatch loadId loadTimestamp repoUrl batchSize branch lastSha
          (ClientResult.raised err)
        = ({ load_id := loadId
             load_timestamp := loadTimestamp
             source_info := { repo_url := repoUrl, branch := branch }
             raw_commits := []
             status := "failed"
             error := some err }, lastSha))
    ∧ (∀ appended err,
        (extractCommitsBatch loadId loadTimestamp repoUrl batchSize branch lastSha
            (ClientResult.raisedDuringAdd appended err)).1.status = "failed"
        ∧ (extractCommitsBatch loadId loadTimestamp repoUrl batchSize branch lastSha
            (ClientResult.raisedDuringAdd appended err)).1.error = some err
        ∧ (extractCommitsBatch loadId loadTimestamp repoUrl batchSize branch lastSha
            (ClientResult.raisedDuringAdd appended err)).1.raw_commits
          = appended.map (fun gc =>
              { git_commit := gc
                extract_metadata :=
                  { batch_id := loadId, load_timestamp := loadTimestamp } })
        ∧ (extractCommitsBatch loadId loadTimestamp repoUrl batchSize branch lastSha
            (ClientResult.raisedDuringAdd appended err)).2 = lastSha) := by
  constructor
  · intro err
    rfl
  · intro appended err
    refine ⟨rfl, rfl, ?_, rfl⟩
    simp [extractCommitsBatch, RawCommitsBatch.addCommits, RawCommitsBatch.markFailed]

/-! ### C9 -/

/-- C9: on a successful listing the extraction validates the collected
count against the requested batch size — only exact equality marks the
batch success, and any mismatch (a short final page included) marks it
failed with an error naming both counts — while the new cursor is
returned. -/
theorem C9_strict_count_validation (loadId loadTimestamp : Nat) (repoUrl : String)
    (batchSize : Nat) (branch : String) (lastSha : Option String)
    (commits : List GitCommitData) (newSha : Option String) :
    ((extractCommitsBatch loadId loadTimestamp repoUrl batchSize branch lastSha
        (ClientResult.ok commits newSha)).2 = newSha)
    ∧ (commits.length = batchSize →
        (extractCommitsBatch loadId loadTimestamp repoUrl batchSize branch lastSha
            (ClientResult.ok commits newSha)).1.status = "success"
        ∧ (extractCommitsBatch loadId loadTimestamp repoUrl batchSize branch lastSha
            (ClientResult.ok commits newSha)).1.error = none)
    ∧ (commits.length ≠ batchSize →
        (extractCommitsBatch loadId loadTimestamp repoUrl batchSize branch lastSha
            (ClientResult.ok commits newSha)).1.status = "failed"
        ∧ (extractCommitsBatch loadId loadTimestamp repoUrl batchSize branch lastSha
            (ClientResult.ok commits newSha)).1.error
          = some ("Expected " ++ toString batchSize ++ ", got "
              ++ toString commits.length)) := by
  refine ⟨rfl, ?_, ?_⟩
  · intro hEq
    constructor <;>
      simp [extractCommitsBatch, RawCommitsBatch.validate, RawCommitsBatch.addCommits,
        hEq]
  · intro hNe
    have hNe2 : ¬ batchSize = commits.length := fun hx => hNe hx.symm
    constructor <;>
      simp [extractCommitsBatch, RawCommitsBatch.validate, RawCommitsBatch.addCommits,
        RawCommitsBatch.markFailed, hNe2]

/-- One raw commit fixture. -/
def rawCommitA : GitCommitData := { hexsha := "a1", message := "m1" }

/-- Another raw commit fixture. -/
def rawCommitB : GitCommitData := { hexsha := "b2", message := "m2" }

/-- C9 witness: a short final page of two commits against a requested
batch size of three is marked failed with the error naming both
counts. -/
theorem C9_strict_count_validation_witness :
    (extractCommitsBatch 1 2 "repo" 3 "main" (some "prev")
        (ClientResult.ok [rawCommitA, rawCommitB] (some "b2"))).1.status = "failed"
    ∧ (extractCommitsBatch 1 2 "repo" 3 "main" (some "prev")
        (ClientResult.ok [rawCommitA, rawCommitB] (some "b2"))).1.error
      = some "Expected 3, got 2" := by
  have h :=
    (C9_strict_count_validation 1 2 "repo" 3 "main" (some "prev")
      [rawCommitA, rawCommitB] (some "b2")).2.2 (by decide)
  refine ⟨h.1, ?_⟩
  rw [h.2]
  rfl

/-! ### C10 -/

/-- C10: iter_parents yields, in the own parent order of the commit, exactly
the element of each parent id present in the graph index — the yielded
hexshas are the present parent ids in order — and when no parent id is in
the index it yields the empty sequence rather than raising. -/
theorem C10_iter_parents_skip_missing (els : List CommitElement) (e : CommitElement) :
    ((CommitGraph.ofElements els).iterParents e
      = e.commit.parents_hexsha.filterMap (CommitGraph.ofElements els).get)
    ∧ (((CommitGraph.ofElements els).iterParents e).map (fun ce => ce.commit.hexsha)
      = e.commit.parents_hexsha.filter
          (fun ph => ((CommitGraph.ofElements els).get ph).isSome))
    ∧ ((∀ ph ∈ e.commit.parents_hexsha, (CommitGraph.ofElements els).get ph = none) →
        (CommitGraph.ofElements els).iterParents e = []) := by
  refine ⟨iterParents_eq _ _, ?_, ?_⟩
  · rw [iterParents_eq]
    induction e.commit.parents_hexsha with
    | nil => rfl
    | cons ph tl ih =>
      cases hg : (CommitGraph.ofElements els).get ph with
      | none => simp [hg, ih]
      | some ce => simp [hg, ih, ofElements_get_hexsha els ph ce hg]
  · intro hall
    rw [iterParents_eq]
    exact List.filterMap_eq_nil_iff.mpr hall

/-- A commit whose only parent lies outside the loaded window. -/
def windowCommit : Commit :=
  { hexsha := "aaa", message := "m", author := { name := none, email := none }
    parents_hexsha := ["zzz"] }

/-- The element wrapping windowCommit. -/
def windowElement : CommitElement := { commit := windowCommit, diff := none }

/-- C10 witness: on a one-element graph whose single parent id is
absent from the index, iter_parents yields the empty sequence. -/
theorem C10_iter_parents_skip_missing_witness :
    (CommitGraph.ofElements [windowElement]).iterParents windowElement = [] :=
  (C10_iter_parents_skip_missing [windowElement] windowElement).2.2
    (by
      intro ph hp
      rcases List.mem_singleton.mp hp with rfl
      rfl)

end DiffETL
